import Mathlib

/-!
Verification development for `sync_radar_data_globus.py`, a Globus-based
SuperDARN mirror synchronization script.

The script's pure logic (argument sanity checking, month formatting, remote
path and listing-filter construction, transfer-batch construction, endpoint
resolution) is embedded as executable Lean definitions.  Interactions with the
external Globus service (directory listing, transfer submission, task waiting,
token exchange, file writes) are modelled by passing the outcome of each
external call as an explicit parameter, and the sequence of remote calls the
client issues is returned as an explicit trace.
-/

namespace SyncRadar

/-- Boolean prefix test on character lists (used to model Python's substring
containment operator `in`). -/
def charsPrefixB : List Char → List Char → Bool
  | [], _ => true
  | _ :: _, [] => false
  | a :: as, b :: bs => a == b && charsPrefixB as bs

/-- Boolean contiguous-sublist test on character lists. -/
def charsInfixB (needle : List Char) : List Char → Bool
  | [] => charsPrefixB needle []
  | b :: bs => charsPrefixB needle (b :: bs) || charsInfixB needle bs

/-- `strContains haystack needle` models Python's `needle in haystack` on
strings: true when `needle` occurs as a contiguous substring of `haystack`. -/
def strContains (haystack needle : String) : Bool :=
  charsInfixB needle.data haystack.data

/-- Python `"{:02d}".format(n)`: decimal rendering of `n`, left-padded with
zeros to a minimum width of two characters (the sign counts toward the
width, matching Python for negative inputs). -/
def format02d (n : Int) : String :=
  if 0 ≤ n ∧ n < 10 then "0" ++ toString n else toString n

/-- `Synchronizer.possible_data_types`. -/
def possible_data_types : List String := ["raw", "dat", "fit", "map", "grid", "summary"]

/-- The distinct `sys.exit` reasons of `Synchronizer.sanity_check`, each
carrying the offending values interpolated into the corresponding message. -/
inductive SanityError
  | futureMonthInCurrentYear (year month : Int)
  | futureYear (year : Int)
  | invalidMonth (month : Int)
  | invalidDataType (data_type : String)
  deriving DecidableEq, Repr

/-- `Synchronizer.sanity_check`: the four `sys.exit` guards, in source order.
`sync_month` is the integer value of the zero-padded month string (Python's
`int(self.sync_month)`, which round-trips the `"{:02d}"` formatting). -/
def sanity_check (cur_year cur_month sync_year sync_month : Int)
    (data_type : String) : Except SanityError Unit :=
  if sync_year = cur_year ∧ sync_month > cur_month then
    .error (.futureMonthInCurrentYear sync_year sync_month)
  else if sync_year > cur_year then
    .error (.futureYear sync_year)
  else if sync_month < 1 ∨ sync_month > 12 then
    .error (.invalidMonth sync_month)
  else if data_type ∈ possible_data_types then
    .ok ()
  else
    .error (.invalidDataType data_type)

/-- The remote listing path built in `Synchronizer.synchronize`:
`"~/chroot/sddata/{}/{}/{}/".format(data_type, sync_year, sync_month)`,
where `sync_month` is the already-formatted month string. -/
def listing_path (data_type : String) (sync_year : Int) (sync_month : String) : String :=
  "~/chroot/sddata/" ++ data_type ++ "/" ++ toString sync_year ++ "/" ++ sync_month ++ "/"

/-- The listing filter built in `Synchronizer.synchronize`: an initial
`"name:~*{}*"` wrapper around the user pattern, overridden by a
category-specific suffixed form via the `if 'raw' in self.data_type: ...`
chain (the `summary` branch and the final `else` both leave the initial
pattern unchanged). -/
def listing_pattern (data_type sync_pattern : String) : String :=
  if strContains data_type "raw" then "name:~*" ++ sync_pattern ++ "*rawacf.bz2"
  else if strContains data_type "dat" then "name:~*" ++ sync_pattern ++ "*dat.bz2"
  else if strContains data_type "fit" then "name:~*" ++ sync_pattern ++ "*fitacf.gz"
  else if strContains data_type "map" then "name:~*" ++ sync_pattern ++ "*map"
  else if strContains data_type "grid" then "name:~*" ++ sync_pattern ++ "*grid"
  else "name:~*" ++ sync_pattern ++ "*"

/-- The fields of the `globus_sdk.TransferData` object built by
`Synchronizer.sync_files_from_list`, including the ordered item list
accumulated by `add_item`. -/
structure TransferData where
  source_endpoint : String
  dest_endpoint : String
  label : String
  sync_level : String
  notify_on_succeeded : Bool
  notify_on_failed : Bool
  items : List (String × String)
  deriving DecidableEq, Repr

/-- `source_dir_prefix_str` as built in `Synchronizer.sync_files_from_list`:
`"/chroot/sddata/{}/{}/{}/".format(data_type, sync_year, sync_month)`. -/
def source_dir_prefix_str (data_type : String) (sync_year : Int) (sync_month : String) : String :=
  "/chroot/sddata/" ++ data_type ++ "/" ++ toString sync_year ++ "/" ++ sync_month ++ "/"

/-- `Synchronizer.sync_files_from_list`: builds the `TransferData` batch with
`label="sync_files_from_list"` (the function name captured via `inspect`),
`sync_level="checksum"`, `notify_on_succeeded=False`, `notify_on_failed=True`,
and one `add_item("{}/{}".format(source_dir_prefix_str, f), "{}/{}".format(dest_dir_prefix, f))`
per listed file, in listing order. -/
def sync_files_from_list (data_type : String) (sync_year : Int)
    (sync_month sync_local_dir : String) (source_uuid dest_uuid : String)
    (files_list : List String) : TransferData :=
  { source_endpoint := source_uuid
    dest_endpoint := dest_uuid
    label := "sync_files_from_list"
    sync_level := "checksum"
    notify_on_succeeded := false
    notify_on_failed := true
    items := files_list.map (fun data_file =>
      (source_dir_prefix_str data_type sync_year sync_month ++ "/" ++ data_file,
       sync_local_dir ++ "/" ++ data_file)) }

/-- One endpoint record from `transfer_client.endpoint_search`, restricted to
the fields `get_superdarn_mirror_uuid` reads. -/
structure EndpointInfo where
  id : String
  contact_email : String
  description : String
  deriving DecidableEq, Repr

/-- The selection condition of `Synchronizer.get_superdarn_mirror_uuid`:
`'kevin.krieger@usask.ca' in ep['contact_email'] and 'Official' in ep['description']`. -/
def epMatchB (ep : EndpointInfo) : Bool :=
  strContains ep.contact_email "kevin.krieger@usask.ca" &&
    strContains ep.description "Official"

/-- `Synchronizer.get_superdarn_mirror_uuid`, applied to the search results in
service order: return the id of the first record matching `epMatchB`;
`sys.exit` (modelled as `Except.error` with the exit message) when none does. -/
def get_superdarn_mirror_uuid : List EndpointInfo → Except String String
  | [] => .error "No endpoint found for SuperDARN mirror. Exiting"
  | ep :: rest => if epMatchB ep then .ok ep.id else get_superdarn_mirror_uuid rest

/-- The Globus exception classes caught by the `except` clauses of
`Synchronizer.synchronize`. -/
inductive ExcKind
  | apiError (code message : String)
  | connectionError
  | timeoutError
  | networkError
  deriving DecidableEq, Repr

/-- The observable result of one `synchronize` run: the transfer finished
within the soft timeout (`"Transfer finished"`), it may still be running
(`"Transfer didn't complete yet but may still be running..."`), or a Globus
exception was caught and reported. -/
inductive Outcome
  | completed
  | stillRunning
  | failed (e : ExcKind)
  deriving DecidableEq, Repr

/-- The remote-service calls the script can issue, recorded as a trace.
`taskCancel` is never issued by the script; it is included so that its
absence from every trace is expressible. -/
inductive RemoteCall
  | endpointSearchCall (query : String)
  | authCall
  | operationLs (endpoint path filterExpr : String)
  | submitTransfer (td : TransferData)
  | taskWait (task_id : String) (timeout polling_interval : Nat)
  | taskCancel
  deriving DecidableEq, Repr

/-- `Synchronizer.synchronize`.  The three external calls inside the `try`
block are modelled by their outcomes, passed in as parameters: `lsResult`
(the `operation_ls` listing: a list of entry names, or a raised Globus
exception), `submitResult` (the `task_id` of `submit_transfer`, or a raised
exception), and `waitResult` (the boolean returned by
`task_wait(task_id, timeout=task_max_duration_s, polling_interval=30)`, or a
raised exception).  A raised Globus exception is caught by the `except`
clauses, printed, and the function returns normally, modelled as
`Outcome.failed`.  The returned trace lists the remote calls issued, in
order. -/
def synchronize (data_type : String) (sync_year : Int)
    (sync_month sync_pattern sync_local_dir : String)
    (mirror_uuid personal_uuid : String)
    (lsResult : Except ExcKind (List String))
    (submitResult : Except ExcKind String)
    (waitResult : Except ExcKind Bool) : Outcome × List RemoteCall :=
  let path := listing_path data_type sync_year sync_month
  let pat := listing_pattern data_type sync_pattern
  match lsResult with
  | .error e => (.failed e, [.operationLs mirror_uuid path pat])
  | .ok files_to_sync =>
    let task_max_duration_s := files_to_sync.length * 30
    let td := sync_files_from_list data_type sync_year sync_month sync_local_dir
                mirror_uuid personal_uuid files_to_sync
    match submitResult with
    | .error e => (.failed e, [.operationLs mirror_uuid path pat, .submitTransfer td])
    | .ok task_id =>
      match waitResult with
      | .error e =>
        (.failed e,
         [.operationLs mirror_uuid path pat, .submitTransfer td,
          .taskWait task_id task_max_duration_s 30])
      | .ok completed =>
        (if completed then .completed else .stillRunning,
         [.operationLs mirror_uuid path pat, .submitTransfer td,
          .taskWait task_id task_max_duration_s 30])

/-- The token fields `get_auth_with_login` reads from
`token_response.by_resource_server['transfer.api.globus.org']`. -/
structure TokenData where
  access_token : String
  refresh_token : String
  deriving DecidableEq, Repr

/-- The authorizer objects the script can hand to `TransferClient`. -/
inductive Authorizer
  | accessTokenAuth (token : String)
  | refreshTokenAuth (refresh_token : String)
  deriving DecidableEq, Repr

/-- The tail of `Synchronizer.get_auth_with_login` after the code exchange:
the refresh token is written to `self.transfer_rt_filename` with no
surrounding `try`, so a failing write (modelled by `writeResult`) raises an
`IOError` that propagates out of the method uncaught (`Except.error`); only
when the write succeeds is `AccessTokenAuthorizer(globus_transfer_token)`
returned. -/
def get_auth_with_login (globus_transfer_data : TokenData)
    (writeResult : Except String Unit) : Except String Authorizer :=
  match writeResult with
  | .error e => .error e
  | .ok _ => .ok (.accessTokenAuth globus_transfer_data.access_token)

/-- The remote calls performed by the tail of `Synchronizer.__init__` once
`sanity_check` has passed: `get_transfer_client()` (an authorization
exchange) followed by `get_superdarn_mirror_uuid()` (an endpoint search). -/
def initRemoteCalls : List RemoteCall :=
  [.authCall, .endpointSearchCall "SuperDARN mirror"]

/-- `Synchronizer.__init__` after argument parsing: `sanity_check` runs
first, and a failing check calls `sys.exit`, so nothing after it executes —
in particular no remote call is made.  Only when the check passes does the
constructor create the transfer client and search for the mirror endpoint. -/
def synchronizerInit (cur_year cur_month sync_year sync_month : Int)
    (data_type : String) : Except SanityError Unit × List RemoteCall :=
  match sanity_check cur_year cur_month sync_year sync_month data_type with
  | .error e => (.error e, [])
  | .ok _ => (.ok (), initRemoteCalls)

/-- **C1 counterexample.**  Claim C1 says a month outside [1,12] always fails
with the reason "invalid month", regardless of how the month compares to the
current month.  At current date 2017-06, a request for year 2017 and month 13
fails with the "is in the future" reason from the first rule instead, because
the future-month check runs before the month-range check. -/
theorem sanity_check_c1_counterexample :
    sanity_check 2017 6 2017 13 "raw"
        = Except.error (SanityError.futureMonthInCurrentYear 2017 13)
    ∧ sanity_check 2017 6 2017 13 "raw"
        ≠ Except.error (SanityError.invalidMonth 13) := by
  refine ⟨rfl, fun h => ?_⟩
  have h0 : sanity_check 2017 6 2017 13 "raw"
      = Except.error (SanityError.futureMonthInCurrentYear 2017 13) := rfl
  rw [h0] at h
  exact SanityError.noConfusion (Except.error.inj h)

/-- **C1 (amended).**  For every request whose month is outside [1,12],
validation fails; the reason is "invalid month" exactly when neither of the
earlier future-date rules fires, i.e. when it is not the case that the year
equals the current year with the month above the current month, and the year
is not above the current year.  Otherwise the future-month or future-year
reason is reported first. -/
theorem sanity_check_c1_amended (cur_year cur_month sync_year sync_month : Int)
    (data_type : String) (h : sync_month < 1 ∨ sync_month > 12) :
    (∃ e, sanity_check cur_year cur_month sync_year sync_month data_type
        = Except.error e)
    ∧ (sanity_check cur_year cur_month sync_year sync_month data_type
          = Except.error (SanityError.invalidMonth sync_month)
       ↔ ¬(sync_year = cur_year ∧ sync_month > cur_month)
          ∧ ¬(sync_year > cur_year)) := by
  unfold sanity_check
  split_ifs with h1 h2
  · exact ⟨⟨_, rfl⟩, by simp [h1]⟩
  · exact ⟨⟨_, rfl⟩, by simp [h2]⟩
  · exact ⟨⟨_, rfl⟩, by simp [h1, h2]⟩

/-- **C1 witness.**  Concrete instance of the amended claim: at current date
2017-06, a request for the past year 2016 with month 13 fails (here with the
"invalid month" reason, since neither future-date rule fires). -/
theorem sanity_check_c1_witness :
    ∃ e, sanity_check 2017 6 2016 13 "raw" = Except.error e :=
  (sanity_check_c1_amended 2017 6 2016 13 "raw" (Or.inr (by decide))).1

/-- **C8.**  For every request with year strictly above the current year, or
with the current year and month strictly above the current month, the
constructor's validation fails (with one of the `sys.exit` reasons) and the
remote-call trace of the run is empty: no remote call is made. -/
theorem synchronizerInit_c8 (cur_year cur_month sync_year sync_month : Int)
    (data_type : String)
    (h : sync_year > cur_year ∨ (sync_year = cur_year ∧ sync_month > cur_month)) :
    (∃ e, (synchronizerInit cur_year cur_month sync_year sync_month data_type).1
        = Except.error e)
    ∧ (synchronizerInit cur_year cur_month sync_year sync_month data_type).2 = [] := by
  have hs : ∃ e, sanity_check cur_year cur_month sync_year sync_month data_type
      = Except.error e := by
    unfold sanity_check
    split_ifs with h1 h2 h3 h4
    · exact ⟨_, rfl⟩
    · exact ⟨_, rfl⟩
    · exact ⟨_, rfl⟩
    · rcases h with h | h
      · exact absurd h h2
      · exact absurd h h1
    · rcases h with h | h
      · exact absurd h h2
      · exact absurd h h1
  obtain ⟨e, he⟩ := hs
  refine ⟨⟨e, ?_⟩, ?_⟩ <;> simp [synchronizerInit, he]

/-- **C8 witness.**  Concrete instance: at current date 2017-06, a request
for 2018-01 fails validation and issues no remote call. -/
theorem synchronizerInit_c8_witness :
    (∃ e, (synchronizerInit 2017 6 2018 1 "raw").1 = Except.error e)
    ∧ (synchronizerInit 2017 6 2018 1 "raw").2 = [] :=
  synchronizerInit_c8 2017 6 2018 1 "raw" (Or.inl (by decide))

/-- **C4.**  For every listing result, the constructed batch has exactly one
item per listed name, the item at each index pairs the source prefix followed
by "/" and the name with the local destination followed by "/" and the name,
and the batch uses checksum sync with notifications only on failure. -/
theorem sync_files_from_list_c4 (data_type : String) (sync_year : Int)
    (sync_month sync_local_dir source_uuid dest_uuid : String)
    (files_list : List String) :
    ((sync_files_from_list data_type sync_year sync_month sync_local_dir
        source_uuid dest_uuid files_list).items.length = files_list.length)
    ∧ (∀ (i : Nat) (f : String), files_list[i]? = some f →
        (sync_files_from_list data_type sync_year sync_month sync_local_dir
            source_uuid dest_uuid files_list).items[i]?
          = some (source_dir_prefix_str data_type sync_year sync_month ++ "/" ++ f,
                  sync_local_dir ++ "/" ++ f))
    ∧ (sync_files_from_list data_type sync_year sync_month sync_local_dir
        source_uuid dest_uuid files_list).sync_level = "checksum"
    ∧ (sync_files_from_list data_type sync_year sync_month sync_local_dir
        source_uuid dest_uuid files_list).notify_on_succeeded = false
    ∧ (sync_files_from_list data_type sync_year sync_month sync_local_dir
        source_uuid dest_uuid files_list).notify_on_failed = true := by
  refine ⟨by simp [sync_files_from_list], ?_, rfl, rfl, rfl⟩
  intro i f hf
  simp [sync_files_from_list, List.getElem?_map, hf]

/-- **C4 witness.**  Concrete instance with a one-file listing. -/
theorem sync_files_from_list_c4_witness :
    (sync_files_from_list "raw" 2007 "01" "/data" "mirror-uuid" "personal-uuid"
        ["20070101.0001.00.sas.rawacf.bz2"]).items[0]?
      = some (source_dir_prefix_str "raw" 2007 "01" ++ "/" ++ "20070101.0001.00.sas.rawacf.bz2",
              "/data" ++ "/" ++ "20070101.0001.00.sas.rawacf.bz2") :=
  (sync_files_from_list_c4 "raw" 2007 "01" "/data" "mirror-uuid" "personal-uuid"
      ["20070101.0001.00.sas.rawacf.bz2"]).2.1 0 "20070101.0001.00.sas.rawacf.bz2" rfl

/-- **C9.**  For every listing of N matched files, the soft deadline passed to
the task wait is exactly 30 × N (with a fixed polling interval of 30). -/
theorem synchronize_c9 (data_type : String) (sync_year : Int)
    (sync_month sync_pattern sync_local_dir mirror_uuid personal_uuid task_id : String)
    (files_to_sync : List String) (waitResult : Except ExcKind Bool) :
    RemoteCall.taskWait task_id (30 * files_to_sync.length) 30
      ∈ (synchronize data_type sync_year sync_month sync_pattern sync_local_dir
          mirror_uuid personal_uuid (.ok files_to_sync) (.ok task_id) waitResult).2 := by
  cases waitResult <;> simp [synchronize, Nat.mul_comm]

/-- **C2 counterexample.**  Claim C2 says a zero-result listing always
reports the Completed outcome trivially.  In a concrete run where the
listing is empty, the soft deadline handed to the task wait is 0 (30 × 0
seconds), and when the wait reports not-completed — which is what a zero
deadline allows — the run reports the still-running outcome, not Completed. -/
theorem synchronize_c2_counterexample :
    (synchronize "raw" 2007 "01" "20070101*sas" "/data" "mirror-uuid" "personal-uuid"
        (.ok []) (.ok "task-1") (.ok false)).1 = Outcome.stillRunning
    ∧ (synchronize "raw" 2007 "01" "20070101*sas" "/data" "mirror-uuid" "personal-uuid"
        (.ok []) (.ok "task-1") (.ok false)).1 ≠ Outcome.completed
    ∧ RemoteCall.taskWait "task-1" 0 30
        ∈ (synchronize "raw" 2007 "01" "20070101*sas" "/data" "mirror-uuid" "personal-uuid"
            (.ok []) (.ok "task-1") (.ok false)).2 := by
  refine ⟨rfl, by decide, by simp [synchronize]⟩

/-- **C2 (amended).**  A zero-result listing is not special-cased as an
error: a zero-item batch is built and submitted, and the run reports an
outcome rather than a failure.  But the soft deadline used for the wait is
30 × 0 = 0, so the run reports Completed exactly when the external wait
nonetheless reports completion; when the zero deadline elapses first the
run reports still-running. -/
theorem synchronize_c2_amended (data_type : String) (sync_year : Int)
    (sync_month sync_pattern sync_local_dir mirror_uuid personal_uuid task_id : String)
    (w : Bool) :
    ((sync_files_from_list data_type sync_year sync_month sync_local_dir
        mirror_uuid personal_uuid []).items = [])
    ∧ (RemoteCall.submitTransfer (sync_files_from_list data_type sync_year sync_month
          sync_local_dir mirror_uuid personal_uuid [])
        ∈ (synchronize data_type sync_year sync_month sync_pattern sync_local_dir
            mirror_uuid personal_uuid (.ok []) (.ok task_id) (.ok w)).2)
    ∧ (RemoteCall.taskWait task_id 0 30
        ∈ (synchronize data_type sync_year sync_month sync_pattern sync_local_dir
            mirror_uuid personal_uuid (.ok []) (.ok task_id) (.ok w)).2)
    ∧ (∀ e, (synchronize data_type sync_year sync_month sync_pattern sync_local_dir
          mirror_uuid personal_uuid (.ok []) (.ok task_id) (.ok w)).1 ≠ Outcome.failed e)
    ∧ ((synchronize data_type sync_year sync_month sync_pattern sync_local_dir
          mirror_uuid personal_uuid (.ok []) (.ok task_id) (.ok w)).1 = Outcome.completed
        ↔ w = true) := by
  refine ⟨rfl, ?_, ?_, ?_, ?_⟩ <;> cases w <;> simp [synchronize]

/-- **C2 witness.**  Concrete instance of the amended claim: with an empty
listing and the wait reporting completion, the zero-item batch run reports
Completed. -/
theorem synchronize_c2_witness :
    (synchronize "raw" 2007 "01" "20070101*sas" "/data" "mirror-uuid" "personal-uuid"
        (.ok []) (.ok "task-1") (.ok true)).1 = Outcome.completed ↔ true = true :=
  (synchronize_c2_amended "raw" 2007 "01" "20070101*sas" "/data" "mirror-uuid"
      "personal-uuid" "task-1" true).2.2.2.2

/-- **C6.**  For every submitted transfer job: when the wait reports
completion within the soft deadline the outcome is Completed, when the
deadline elapses first (the wait returns false) the outcome is
still-running, and no execution of `synchronize` — whatever the outcomes of
the listing, submission and wait calls — ever issues a task-cancel call. -/
theorem synchronize_c6 (data_type : String) (sync_year : Int)
    (sync_month sync_pattern sync_local_dir mirror_uuid personal_uuid : String) :
    (∀ (files_to_sync : List String) (task_id : String) (completed : Bool),
      (synchronize data_type sync_year sync_month sync_pattern sync_local_dir
          mirror_uuid personal_uuid (.ok files_to_sync) (.ok task_id) (.ok completed)).1
        = if completed then Outcome.completed else Outcome.stillRunning)
    ∧ (∀ (lsResult : Except ExcKind (List String)) (submitResult : Except ExcKind String)
        (waitResult : Except ExcKind Bool),
      RemoteCall.taskCancel
        ∉ (synchronize data_type sync_year sync_month sync_pattern sync_local_dir
            mirror_uuid personal_uuid lsResult submitResult waitResult).2) := by
  constructor
  · intro files_to_sync task_id completed
    cases completed <;> rfl
  · intro lsResult submitResult waitResult
    cases lsResult <;> cases submitResult <;> cases waitResult <;> simp [synchronize]

/-- **C6 witness.**  Concrete instance: a one-file run whose wait reports
completion ends Completed, and its trace contains no cancel call. -/
theorem synchronize_c6_witness :
    ((synchronize "raw" 2007 "01" "20070101*sas" "/data" "mirror-uuid" "personal-uuid"
        (.ok ["a.rawacf.bz2"]) (.ok "task-1") (.ok true)).1
      = if true then Outcome.completed else Outcome.stillRunning)
    ∧ RemoteCall.taskCancel
        ∉ (synchronize "raw" 2007 "01" "20070101*sas" "/data" "mirror-uuid" "personal-uuid"
            (.ok ["a.rawacf.bz2"]) (.ok "task-1") (.ok true)).2 :=
  ⟨(synchronize_c6 "raw" 2007 "01" "20070101*sas" "/data" "mirror-uuid"
      "personal-uuid").1 ["a.rawacf.bz2"] "task-1" true,
   (synchronize_c6 "raw" 2007 "01" "20070101*sas" "/data" "mirror-uuid"
      "personal-uuid").2 (.ok ["a.rawacf.bz2"]) (.ok "task-1") (.ok true)⟩

/-- **C3 counterexample.**  Claim C3 says a failed write of the refresh
secret does not abort the run and the in-memory access token is still
returned.  With a failing write, `get_auth_with_login` propagates the write
error (the `open`/`write` calls have no surrounding `try`) and returns no
authorizer at all. -/
theorem auth_c3_counterexample :
    get_auth_with_login ⟨"ACCESS-TOKEN", "REFRESH-TOKEN"⟩ (Except.error "IOError")
      = Except.error "IOError"
    ∧ ¬ ∃ a, get_auth_with_login ⟨"ACCESS-TOKEN", "REFRESH-TOKEN"⟩ (Except.error "IOError")
        = Except.ok a := by
  refine ⟨rfl, ?_⟩
  rintro ⟨a, ha⟩
  have h0 : get_auth_with_login ⟨"ACCESS-TOKEN", "REFRESH-TOKEN"⟩ (Except.error "IOError")
      = Except.error "IOError" := rfl
  rw [h0] at ha
  exact Except.noConfusion ha

/-- **C3 (amended).**  In the interactive credential flow, a failure to
write the new refresh secret to the fixed-path file propagates as an
uncaught exception and aborts the flow: no authorizer (and hence no
in-memory access token) is returned and no warning is issued; only when the
write succeeds is the access-token authorizer returned. -/
theorem auth_c3_amended (globus_transfer_data : TokenData) (e : String) :
    get_auth_with_login globus_transfer_data (Except.error e) = Except.error e
    ∧ get_auth_with_login globus_transfer_data (Except.ok ())
        = Except.ok (Authorizer.accessTokenAuth globus_transfer_data.access_token) :=
  ⟨rfl, rfl⟩

/-- **C7.**  For every valid month (in [1,12]) the formatted month has
exactly two digits (month 1 gives "01") and the listing path contains it as
a path segment; the raw filter wraps the user pattern and ends in the
suffix "rawacf.bz2", with the analogous fixed suffixes for dat, fit, map
and grid, and no suffix constraint for summary. -/
theorem translate_c7 (data_type sync_pattern : String) (sync_year m : Int)
    (h1 : 1 ≤ m) (h2 : m ≤ 12) :
    (format02d m).length = 2
    ∧ format02d 1 = "01"
    ∧ listing_path data_type sync_year (format02d m)
        = ("~/chroot/sddata/" ++ data_type ++ "/" ++ toString sync_year ++ "/")
            ++ format02d m ++ "/"
    ∧ listing_pattern "raw" sync_pattern = "name:~*" ++ sync_pattern ++ "*rawacf.bz2"
    ∧ (∃ q, listing_pattern "raw" sync_pattern = q ++ "rawacf.bz2")
    ∧ (∃ q, listing_pattern "dat" sync_pattern = q ++ "dat.bz2")
    ∧ (∃ q, listing_pattern "fit" sync_pattern = q ++ "fitacf.gz")
    ∧ (∃ q, listing_pattern "map" sync_pattern = q ++ "map")
    ∧ (∃ q, listing_pattern "grid" sync_pattern = q ++ "grid")
    ∧ listing_pattern "summary" sync_pattern = "name:~*" ++ sync_pattern ++ "*" := by
  refine ⟨?_, rfl, rfl, rfl, ⟨"name:~*" ++ sync_pattern ++ "*", ?_⟩,
      ⟨"name:~*" ++ sync_pattern ++ "*", ?_⟩, ⟨"name:~*" ++ sync_pattern ++ "*", ?_⟩,
      ⟨"name:~*" ++ sync_pattern ++ "*", ?_⟩, ⟨"name:~*" ++ sync_pattern ++ "*", ?_⟩, rfl⟩
  · interval_cases m <;> decide
  all_goals rw [String.append_assoc ("name:~*" ++ sync_pattern)]
  all_goals rfl

/-- **C7 witness.**  Concrete instance: month 1 formats to a two-character
segment. -/
theorem translate_c7_witness : (format02d 1).length = 2 :=
  (translate_c7 "raw" "20070101*sas" 2007 1 (by decide) (by decide)).1

/-- **C10.**  For every file in the batch, the constructed source path has a
doubled slash between the month segment and the file name (the source
prefix already ends in "/" and the item format inserts another "/"); the
listing path begins with "~/" while the transfer source prefix begins with
"/", and the two differ. -/
theorem paths_c10 (data_type : String) (sync_year : Int)
    (sync_month sync_local_dir source_uuid dest_uuid f : String)
    (files_list : List String) (hf : f ∈ files_list) :
    ("/chroot/sddata/" ++ data_type ++ "/" ++ toString sync_year ++ "/" ++ sync_month
          ++ "//" ++ f,
        sync_local_dir ++ "/" ++ f)
      ∈ (sync_files_from_list data_type sync_year sync_month sync_local_dir
          source_uuid dest_uuid files_list).items
    ∧ (∃ r, listing_path data_type sync_year sync_month = "~/" ++ r)
    ∧ (∃ r, source_dir_prefix_str data_type sync_year sync_month = "/" ++ r)
    ∧ listing_path data_type sync_year sync_month
        ≠ source_dir_prefix_str data_type sync_year sync_month := by
  have key0 : source_dir_prefix_str data_type sync_year sync_month ++ "/"
      = "/chroot/sddata/" ++ data_type ++ "/" ++ toString sync_year ++ "/"
          ++ sync_month ++ "//" := by
    rw [source_dir_prefix_str, String.append_assoc]; rfl
  have key : source_dir_prefix_str data_type sync_year sync_month ++ "/" ++ f
      = "/chroot/sddata/" ++ data_type ++ "/" ++ toString sync_year ++ "/"
          ++ sync_month ++ "//" ++ f := by
    rw [key0]
  have e1 : listing_path data_type sync_year sync_month
      = "~/" ++ ("chroot/sddata/" ++ data_type ++ "/" ++ toString sync_year ++ "/"
          ++ sync_month ++ "/") := rfl
  have e2 : source_dir_prefix_str data_type sync_year sync_month
      = "/" ++ ("chroot/sddata/" ++ data_type ++ "/" ++ toString sync_year ++ "/"
          ++ sync_month ++ "/") := rfl
  refine ⟨?_, ⟨_, e1⟩, ⟨_, e2⟩, ?_⟩
  · rw [← key]
    simp only [sync_files_from_list]
    exact List.mem_map_of_mem _ hf
  · intro hcontra
    rw [e1, e2] at hcontra
    have hd : '~' :: '/' :: ("chroot/sddata/" ++ data_type ++ "/" ++ toString sync_year
          ++ "/" ++ sync_month ++ "/").data
        = '/' :: ("chroot/sddata/" ++ data_type ++ "/" ++ toString sync_year
          ++ "/" ++ sync_month ++ "/").data := congrArg String.data hcontra
    injection hd with ha _
    exact absurd ha (by decide)

/-- **C10 witness.**  Concrete instance: a one-file batch whose source path
contains the doubled slash. -/
theorem paths_c10_witness :
    ("/chroot/sddata/" ++ "raw" ++ "/" ++ toString (2007 : Int) ++ "/" ++ "01"
          ++ "//" ++ "x.rawacf.bz2",
        "/data" ++ "/" ++ "x.rawacf.bz2")
      ∈ (sync_files_from_list "raw" 2007 "01" "/data" "mirror-uuid" "personal-uuid"
          ["x.rawacf.bz2"]).items :=
  (paths_c10 "raw" 2007 "01" "/data" "mirror-uuid" "personal-uuid" "x.rawacf.bz2"
      ["x.rawacf.bz2"] (by simp)).1

/-- **C5.**  For every endpoint search result list: when no result matches
both the contact-email and description conditions, resolution fails with
the endpoint-not-found exit; and when the result at position k matches both
conditions while every earlier position does not, resolution returns that
result's id — the first full match in service order, never a partial
match. -/
theorem resolver_c5 (results : List EndpointInfo) :
    ((∀ ep ∈ results, epMatchB ep = false) →
      get_superdarn_mirror_uuid results
        = Except.error "No endpoint found for SuperDARN mirror. Exiting")
    ∧ (∀ (k : Nat) (ep : EndpointInfo), results[k]? = some ep →
        epMatchB ep = true →
        (∀ (j : Nat) (ep' : EndpointInfo), j < k → results[j]? = some ep' →
          epMatchB ep' = false) →
        get_superdarn_mirror_uuid results = Except.ok ep.id) := by
  constructor
  · induction results with
    | nil => intro _; rfl
    | cons e rest ih =>
      intro hall
      have h1 : epMatchB e = false := hall e (by simp)
      simp only [get_superdarn_mirror_uuid, h1, Bool.false_eq_true, if_false]
      exact ih fun ep' hep' => hall ep' (List.mem_cons_of_mem e hep')
  · induction results with
    | nil => intro k ep hk; simp at hk
    | cons e rest ih =>
      intro k ep hk hmatch hbefore
      cases k with
      | zero =>
        have he : e = ep := by simpa using hk
        subst he
        simp [get_superdarn_mirror_uuid, hmatch]
      | succ n =>
        have h0 : epMatchB e = false := hbefore 0 e (Nat.succ_pos n) (by simp)
        simp only [get_superdarn_mirror_uuid, h0, Bool.false_eq_true, if_false]
        refine ih n ep (by simpa using hk) hmatch ?_
        intro j ep' hj hj'
        exact hbefore (j + 1) ep' (by omega) (by simpa using hj')

/-- **C5 witness.**  Concrete instances: a two-result search where only the
second result matches both conditions resolves to the second id, and a
search whose single result matches the contact but not the description
fails with the endpoint-not-found exit. -/
theorem resolver_c5_witness :
    get_superdarn_mirror_uuid
      [{ id := "id1", contact_email := "someone@else.org",
         description := "Official SuperDARN mirror" },
       { id := "id2", contact_email := "kevin.krieger@usask.ca",
         description := "Official SuperDARN mirror" }]
      = Except.ok "id2"
    ∧ get_superdarn_mirror_uuid
        [{ id := "id1", contact_email := "kevin.krieger@usask.ca",
           description := "not official" }]
      = Except.error "No endpoint found for SuperDARN mirror. Exiting" := by
  refine ⟨(resolver_c5 _).2 1 _ rfl (by decide) ?_, (resolver_c5 _).1 ?_⟩
  · intro j ep' hj hj'
    interval_cases j
    simp only [List.getElem?_cons_zero, Option.some.injEq] at hj'
    subst hj'
    decide
  · intro ep hep
    simp only [List.mem_singleton] at hep
    subst hep
    decide

end SyncRadar
